import Mathlib

/-!
Shallow embedding of the sheet-snitch bot (src/bot.py): an authorization
cache backed by a persisted auth-log worksheet, plus a record-lookup
command with field-level password masking.

State that the Python program mutates is passed explicitly: the in-memory
cache `authorized_users` becomes an association list with Python-dict
update semantics, and the `auth_log` worksheet becomes an optional table
(`none` models the worksheet not existing yet).  The record sheet is
read-only and is passed as a plain list of rows.
-/

namespace SheetSnitch

/-- Python `str.strip()` (default whitespace stripping), written over the
character list so it computes by structural recursion. -/
def pyStrip (s : String) : String :=
  ⟨((s.data.dropWhile Char.isWhitespace).reverse.dropWhile Char.isWhitespace).reverse⟩

/-- Python `str.lower()` over the ASCII data these sheets hold. -/
def pyLower (s : String) : String := ⟨s.data.map Char.toLower⟩

/-- Python `str(x).strip().lower()` as applied to the string cells here. -/
def normalize (s : String) : String := pyLower (pyStrip s)

/-- Python `" ".join(args).strip().lower()` used on command arguments in
both the `/auth` and `/lookup` handlers. -/
def joinArgs (args : List String) : String :=
  normalize (String.intercalate " " args)

/-- One data row of the `auth_log` worksheet (below the header row). -/
structure AuthRow where
  user_id : String
  last_login : String
  role : String
deriving DecidableEq, Repr

/-- The `auth_log` worksheet: a header row and the data rows below it. -/
structure AuthTable where
  header : List String
  rows : List AuthRow
deriving DecidableEq, Repr

/-- One row of the record sheet (`sheet.get_all_records()` in `lookup`). -/
structure Record where
  name : String
  customer : String
  password : String
  balance : String
  last_login : String
  player_notes : String
deriving DecidableEq, Repr

/-- The mutable state of the process: the in-memory `authorized_users`
dict and the persisted `auth_log` worksheet (`none` = worksheet absent). -/
structure State where
  cache : List (String × String)
  authTable : Option AuthTable
deriving DecidableEq, Repr

/-- Python dict read: first (and by construction only) binding of the key. -/
def dictGet (c : List (String × String)) (k : String) : Option String :=
  match c with
  | [] => none
  | (k', v') :: rest => if k' = k then some v' else dictGet rest k

/-- Python dict assignment `c[k] = v`: overwrite the existing binding in
place, or append a fresh one. -/
def dictSet (c : List (String × String)) (k v : String) : List (String × String) :=
  match c with
  | [] => [(k, v)]
  | (k', v') :: rest => if k' = k then (k, v) :: rest else (k', v') :: dictSet rest k v

/-- The header row written when `log_user_auth` creates the `auth_log`
worksheet (`auth_ws.update("A1:C1", ...)`). -/
def authHeader : List String := ["user_id", "last_login", "role"]

/-- The in-place update `auth_ws.update(f"B{idx}:C{idx}", [[now, role]])`:
rewrite the `last_login` and `role` cells of the first row whose stripped
key column equals `uid`, leaving the key column and all other rows alone. -/
def updateFirst (rows : List AuthRow) (uid now role : String) : List AuthRow :=
  match rows with
  | [] => []
  | r :: rest =>
    if pyStrip r.user_id = uid then { r with last_login := now, role := role } :: rest
    else r :: updateFirst rest uid now role

/-- `log_user_auth(user_id, role)` (src/bot.py lines 43-61), with the
current wall-clock string `now` passed in.  Creates the worksheet with
`authHeader` when absent, updates the first row keyed by `uid` in place
when present, appends otherwise, and finally sets the cache entry. -/
def log_user_auth (uid now role : String) (s : State) : State :=
  let t : AuthTable :=
    match s.authTable with
    | none => ⟨authHeader, []⟩
    | some t => t
  let ids := t.rows.map (fun r => pyStrip r.user_id)
  let rows' :=
    if uid ∈ ids then updateFirst t.rows uid now role
    else t.rows ++ [⟨uid, now, role⟩]
  ⟨dictSet s.cache uid role, some ⟨t.header, rows'⟩⟩

/-- Linear scan of the auth rows for the first row whose stripped key
column equals `uid`; the stored role comes back `.strip().lower()`-ed. -/
def findRoleInTable (rows : List AuthRow) (uid : String) : Option String :=
  match rows with
  | [] => none
  | r :: rest =>
    if pyStrip r.user_id = uid then some (normalize r.role)
    else findRoleInTable rest uid

/-- Result of `get_user_role`: the resolved role, the cache afterwards,
and how many `get_all_records()` reads of the auth table were performed. -/
structure RoleResult where
  role : Option String
  cache : List (String × String)
  storeReads : Nat
deriving DecidableEq, Repr

/-- `get_user_role(user_id)` (src/bot.py lines 63-77): cache hit returns
immediately; on a miss the auth worksheet is scanned once, populating the
cache on success; a missing worksheet (`WorksheetNotFound`) yields `none`. -/
def get_user_role (uid : String) (s : State) : RoleResult :=
  match dictGet s.cache uid with
  | some r => ⟨some r, s.cache, 0⟩
  | none =>
    match s.authTable with
    | none => ⟨none, s.cache, 0⟩
    | some t =>
      match findRoleInTable t.rows uid with
      | some role => ⟨some role, dictSet s.cache uid role, 1⟩
      | none => ⟨none, s.cache, 1⟩

/-- One iteration of the preload loop in `on_startup`: cache the row's
stripped key unless it is empty. -/
def preloadRow (cache : List (String × String)) (r : AuthRow) : List (String × String) :=
  let uid := pyStrip r.user_id
  if uid = "" then cache else dictSet cache uid (normalize r.role)

/-- The auth-log preload in `on_startup` (src/bot.py lines 163-174): read
every auth row into the cache; a missing worksheet means no entries. -/
def preload (s : State) : State :=
  match s.authTable with
  | none => s
  | some t => ⟨t.rows.foldl preloadRow s.cache, s.authTable⟩

/-- Reply sent by `/auth` on an invalid (or falsy-role) code. -/
def invalidCodeMsg : String := "❌ Invalid code. Try again."

/-- Reply sent by `/auth` on success, around the granted role. -/
def authSuccessMsg (role : String) : String :=
  "✅ Auth successful as *" ++ role ++ "*!"

/-- The `/auth` handler (src/bot.py lines 93-101): normalize the argument
text, look it up in the static `AUTH_CODES` mapping, and on a truthy role
log the authentication; otherwise reply invalid with no state change. -/
def auth (codes : List (String × String)) (uid now : String) (args : List String)
    (s : State) : String × State :=
  let code := joinArgs args
  match dictGet codes code with
  | some role =>
    if role = "" then (invalidCodeMsg, s)
    else (authSuccessMsg role, log_user_auth uid now role s)
  | none => (invalidCodeMsg, s)

/-- The fixed masking token substituted for the password field. -/
def maskToken : String := "••••••••"

/-- The match test of the lookup loop (src/bot.py line 121):
`query in (name, customer, password)` over the normalized field values. -/
def matchRow (query : String) (row : Record) : Bool :=
  query == normalize row.name || query == normalize row.customer ||
    query == normalize row.password

/-- The password display rule (src/bot.py lines 123-125): mask unless the
caller is admin or the query equals the normalized password. -/
def displayPw (role query : String) (row : Record) : String :=
  if role ≠ "admin" ∧ query ≠ normalize row.password then maskToken
  else row.password

/-- The match block appended for a matching row (src/bot.py lines 127-135);
every field other than the password is rendered verbatim. -/
def renderMatch (row : Record) (display_pw : String) : String :=
  "🔹 Match:\n" ++
  "👤 Name: " ++ row.name ++ "\n" ++
  "🆔 Customer: " ++ row.customer ++ "\n" ++
  "🔑 Password: " ++ display_pw ++ "\n" ++
  "💰 Balance: " ++ row.balance ++ "\n" ++
  "⏰ Last Login: " ++ row.last_login ++ "\n" ++
  "📝 Notes: " ++ row.player_notes

/-- The record-scanning loop of `lookup` (src/bot.py lines 115-135):
collect a rendered block for every row the query matches, in row order. -/
def search (role query : String) (records : List Record) : List String :=
  match records with
  | [] => []
  | row :: rest =>
    if matchRow query row then
      renderMatch row (displayPw role query row) :: search role query rest
    else search role query rest

/-- Reply sent by `/lookup` to an unauthorized caller. -/
def unauthorizedMsg : String := "🚫 You are not authorized. Use /auth <code>."

/-- Reply sent by `/lookup` on an empty query. -/
def usageMsg : String := "Usage: /lookup <value>"

/-- Reply sent by `/lookup` when no row matches. -/
def noMatchesMsg : String := "🚫 No matches found."

/-- What `/lookup` sends back: a single reply text, or the matched blocks
(which the transport then joins and chunks). -/
inductive LookupOutcome where
  | reply (text : String)
  | matches (blocks : List String)
deriving DecidableEq, Repr

/-- Result of one `/lookup` invocation: the outcome, the state afterwards,
the number of `get_all_records()` reads of the record sheet, and whether
the record-scanning loop ran at all. -/
structure LookupRun where
  outcome : LookupOutcome
  state : State
  recordReads : Nat
  searchInvoked : Bool
deriving DecidableEq, Repr

/-- The `/lookup` handler (src/bot.py lines 103-143): resolve the role
(mutating the cache on a read-through), reject falsy roles, reject empty
queries, then read the record sheet once and scan it. -/
def lookup (uid : String) (args : List String) (records : List Record)
    (s : State) : LookupRun :=
  let rr := get_user_role uid s
  let s' : State := ⟨rr.cache, s.authTable⟩
  match rr.role with
  | none => ⟨.reply unauthorizedMsg, s', 0, false⟩
  | some role =>
    if role = "" then ⟨.reply unauthorizedMsg, s', 0, false⟩
    else
      let query := joinArgs args
      if query = "" then ⟨.reply usageMsg, s', 0, false⟩
      else
        let ms := search role query records
        if ms.isEmpty then ⟨.reply noMatchesMsg, s', 1, true⟩
        else ⟨.matches ms, s', 1, true⟩

/-- Error classes the gspread layer can raise: a missing worksheet
(`WorksheetNotFound`), an API rate limit, or any other transient failure. -/
inductive StoreErr where
  | worksheetNotFound
  | rateLimited
  | transient
deriving DecidableEq, Repr

/-- `get_user_role` with a fallible auth-worksheet fetch.  The Python
`try` catches only `WorksheetNotFound` (treated as no entry); every other
store error escapes the function uncaught. -/
def get_user_roleE (uid : String) (cache : List (String × String))
    (authFetch : Except StoreErr AuthTable) : Except StoreErr RoleResult :=
  match dictGet cache uid with
  | some r => .ok ⟨some r, cache, 0⟩
  | none =>
    match authFetch with
    | .error .worksheetNotFound => .ok ⟨none, cache, 0⟩
    | .error e => .error e
    | .ok t =>
      match findRoleInTable t.rows uid with
      | some role => .ok ⟨some role, dictSet cache uid role, 1⟩
      | none => .ok ⟨none, cache, 1⟩

/-- `log_user_auth` with a fallible auth-worksheet fetch: a missing
worksheet is handled by creating it (the table-absent path of
`log_user_auth`); any other store error escapes uncaught. -/
def log_user_authE (uid now role : String) (cache : List (String × String))
    (authFetch : Except StoreErr AuthTable) : Except StoreErr State :=
  match authFetch with
  | .error .worksheetNotFound => .ok (log_user_auth uid now role ⟨cache, none⟩)
  | .error e => .error e
  | .ok t => .ok (log_user_auth uid now role ⟨cache, some t⟩)

/-- `lookup` with fallible store fetches: the role resolution may fail
(only `WorksheetNotFound` is caught inside it), and the record-sheet read
`sheet.get_all_records()` has no exception handler at all, so any error
there escapes to the transport layer. -/
def lookupE (uid : String) (args : List String)
    (authFetch : Except StoreErr AuthTable)
    (recFetch : Except StoreErr (List Record))
    (cache : List (String × String)) : Except StoreErr LookupRun :=
  match get_user_roleE uid cache authFetch with
  | .error e => .error e
  | .ok rr =>
    let s' : State := ⟨rr.cache, none⟩
    match rr.role with
    | none => .ok ⟨.reply unauthorizedMsg, s', 0, false⟩
    | some role =>
      if role = "" then .ok ⟨.reply unauthorizedMsg, s', 0, false⟩
      else
        let query := joinArgs args
        if query = "" then .ok ⟨.reply usageMsg, s', 0, false⟩
        else
          match recFetch with
          | .error e => .error e
          | .ok records =>
            let ms := search role query records
            if ms.isEmpty then .ok ⟨.reply noMatchesMsg, s', 1, true⟩
            else .ok ⟨.matches ms, s', 1, true⟩

/-- The operations through which the process mutates its state: the
startup preload, an `/auth` command, a bare role resolution, and a
`/lookup` command. -/
inductive Step : State → State → Prop where
  | preloadStep (s : State) : Step s (preload s)
  | authStep (codes : List (String × String)) (uid now : String)
      (args : List String) (s : State) : Step s (auth codes uid now args s).2
  | resolveStep (uid : String) (s : State) :
      Step s ⟨(get_user_role uid s).cache, s.authTable⟩
  | lookupStep (uid : String) (args : List String) (records : List Record)
      (s : State) : Step s (lookup uid args records s).state

/-- States the process can reach: it starts with an empty cache over an
arbitrary persisted table and then takes `Step`s. -/
inductive Reachable : State → Prop where
  | start (t : Option AuthTable) : Reachable ⟨[], t⟩
  | next (s s' : State) : Reachable s → Step s s' → Reachable s'

/-- Number of auth rows whose stripped key column equals `u`. -/
def countRows (rows : List AuthRow) (u : String) : Nat :=
  match rows with
  | [] => 0
  | r :: rest => (if pyStrip r.user_id = u then 1 else 0) + countRows rest u

/-- The data rows of the persisted auth table (none when it is absent). -/
def tableRows (s : State) : List AuthRow :=
  match s.authTable with
  | none => []
  | some t => t.rows

/-! Basic lemmas about the dict operations and the auth-table helpers. -/

theorem dictGet_dictSet (c : List (String × String)) (k v u : String) :
    dictGet (dictSet c k v) u = if k = u then some v else dictGet c u := by
  induction c with
  | nil =>
    by_cases hu : k = u <;> simp [dictSet, dictGet, hu]
  | cons p rest ih =>
    obtain ⟨k', v'⟩ := p
    by_cases hk : k' = k
    · subst hk
      by_cases hu : k' = u <;> simp [dictSet, dictGet, hu]
    · by_cases hu : k' = u
      · subst hu
        have hku : k ≠ k' := fun h => hk h.symm
        simp [dictSet, dictGet, hk, hku]
      · simp [dictSet, dictGet, hk, hu, ih]

theorem isSome_dictGet_dictSet (c : List (String × String)) (k v u : String)
    (h : (dictGet c u).isSome = true) :
    (dictGet (dictSet c k v) u).isSome = true := by
  rw [dictGet_dictSet]
  split
  · rfl
  · exact h

theorem isSome_dictGet_preloadRow (c : List (String × String)) (r : AuthRow)
    (u : String) (h : (dictGet c u).isSome = true) :
    (dictGet (preloadRow c r) u).isSome = true := by
  have he : preloadRow c r =
      if pyStrip r.user_id = "" then c
      else dictSet c (pyStrip r.user_id) (normalize r.role) := rfl
  rw [he]
  split
  · exact h
  · exact isSome_dictGet_dictSet _ _ _ _ h

theorem isSome_dictGet_foldl_preloadRow (rows : List AuthRow)
    (c : List (String × String)) (u : String)
    (h : (dictGet c u).isSome = true) :
    (dictGet (rows.foldl preloadRow c) u).isSome = true := by
  induction rows generalizing c with
  | nil => exact h
  | cons r rest ih => exact ih _ (isSome_dictGet_preloadRow c r u h)

theorem countRows_append (a b : List AuthRow) (u : String) :
    countRows (a ++ b) u = countRows a u + countRows b u := by
  induction a with
  | nil => simp [countRows]
  | cons r rest ih => simp [countRows, ih, Nat.add_assoc]

theorem countRows_updateFirst (rows : List AuthRow) (uid now role u : String) :
    countRows (updateFirst rows uid now role) u = countRows rows u := by
  induction rows with
  | nil => rfl
  | cons r rest ih =>
    by_cases h : pyStrip r.user_id = uid <;> simp [updateFirst, countRows, h, ih]

theorem length_updateFirst (rows : List AuthRow) (uid now role : String) :
    (updateFirst rows uid now role).length = rows.length := by
  induction rows with
  | nil => rfl
  | cons r rest ih =>
    by_cases h : pyStrip r.user_id = uid <;> simp [updateFirst, h, ih]

theorem mem_ids_iff_countRows (rows : List AuthRow) (u : String) :
    u ∈ rows.map (fun r => pyStrip r.user_id) ↔ countRows rows u ≠ 0 := by
  induction rows with
  | nil => simp [countRows]
  | cons r rest ih =>
    by_cases h : pyStrip r.user_id = u
    · simp [countRows, h]
    · have h' : u ≠ pyStrip r.user_id := fun hh => h hh.symm
      simp [countRows, h, h', ih]

theorem tableRows_log (uid now role : String) (s : State) :
    tableRows (log_user_auth uid now role s) =
      if countRows (tableRows s) uid ≠ 0
      then updateFirst (tableRows s) uid now role
      else tableRows s ++ [⟨uid, now, role⟩] := by
  obtain ⟨cache, table⟩ := s
  cases table with
  | none => simp [log_user_auth, tableRows, countRows]
  | some t =>
    show (if uid ∈ t.rows.map (fun r => pyStrip r.user_id)
          then updateFirst t.rows uid now role
          else t.rows ++ [⟨uid, now, role⟩]) = _
    rw [if_congr (mem_ids_iff_countRows t.rows uid) rfl rfl]
    rfl

theorem countRows_log (uid now role : String) (s : State) (hu : pyStrip uid = uid) :
    countRows (tableRows (log_user_auth uid now role s)) uid =
      if countRows (tableRows s) uid = 0 then 1
      else countRows (tableRows s) uid := by
  rw [tableRows_log]
  by_cases h : countRows (tableRows s) uid = 0
  · simp [h, countRows_append, countRows, hu]
  · simp [h, countRows_updateFirst]

theorem length_tableRows_log_of_present (uid now role : String) (s : State)
    (h : countRows (tableRows s) uid ≠ 0) :
    (tableRows (log_user_auth uid now role s)).length = (tableRows s).length := by
  rw [tableRows_log]
  simp [h, length_updateFirst]

theorem log_user_auth_cache (uid now role : String) (s : State) :
    (log_user_auth uid now role s).cache = dictSet s.cache uid role := rfl

theorem auth_of_valid (codes : List (String × String)) (uid now role : String)
    (args : List String) (s : State)
    (hcode : dictGet codes (joinArgs args) = some role) (hrole : role ≠ "") :
    auth codes uid now args s = (authSuccessMsg role, log_user_auth uid now role s) := by
  simp only [auth]
  rw [hcode]
  simp [hrole]

theorem auth_cases (codes : List (String × String)) (uid now : String)
    (args : List String) (s : State) :
    auth codes uid now args s = (invalidCodeMsg, s) ∨
      ∃ role, role ≠ "" ∧ dictGet codes (joinArgs args) = some role ∧
        auth codes uid now args s =
          (authSuccessMsg role, log_user_auth uid now role s) := by
  cases h : dictGet codes (joinArgs args) with
  | none =>
    refine Or.inl ?_
    simp only [auth]
    rw [h]
  | some role =>
    by_cases hr : role = ""
    · refine Or.inl ?_
      simp only [auth]
      rw [h]
      simp [hr]
    · exact Or.inr ⟨role, hr, rfl, auth_of_valid codes uid now role args s h hr⟩

theorem preload_authTable (s : State) : (preload s).authTable = s.authTable := by
  obtain ⟨cache, table⟩ := s
  cases table <;> rfl

theorem lookup_state (uid : String) (args : List String) (records : List Record)
    (s : State) :
    (lookup uid args records s).state = ⟨(get_user_role uid s).cache, s.authTable⟩ := by
  simp only [lookup]
  split
  · rfl
  · split
    · rfl
    · split
      · rfl
      · split <;> rfl

theorem get_user_role_cache_mono (uid u : String) (s : State)
    (h : (dictGet s.cache u).isSome = true) :
    (dictGet (get_user_role uid s).cache u).isSome = true := by
  unfold get_user_role
  split
  · exact h
  · split
    · exact h
    · split
      · exact isSome_dictGet_dictSet _ _ _ _ h
      · exact h

theorem reachable_table_none_cache_nil (s : State) (h : Reachable s)
    (ht : s.authTable = none) : s.cache = [] := by
  induction h with
  | start t => rfl
  | next s0 s1 hr hstep ih =>
    cases hstep with
    | preloadStep s0 =>
      have hs : s0.authTable = none := by rw [← preload_authTable]; exact ht
      have hc := ih hs
      obtain ⟨cache, table⟩ := s0
      cases table with
      | none => exact hc
      | some t => exact absurd hs (by simp)
    | authStep codes uid now args s0 =>
      rcases auth_cases codes uid now args s0 with he | ⟨role, hr', hc, he⟩
      · rw [he] at ht ⊢
        exact ih ht
      · rw [he] at ht
        simp [log_user_auth] at ht
    | resolveStep uid s0 =>
      have hs : s0.authTable = none := ht
      have hc := ih hs
      show (get_user_role uid s0).cache = []
      obtain ⟨cache, table⟩ := s0
      simp only at hc hs
      subst hc hs
      rfl
    | lookupStep uid args records s0 =>
      rw [lookup_state] at ht ⊢
      have hs : s0.authTable = none := ht
      have hc := ih hs
      show (get_user_role uid s0).cache = []
      obtain ⟨cache, table⟩ := s0
      simp only at hc hs
      subst hc hs
      rfl

theorem matchRow_iff (q : String) (row : Record) :
    matchRow q row = true ↔
      (q = normalize row.name ∨ q = normalize row.customer ∨
        q = normalize row.password) := by
  simp [matchRow, or_assoc]

/-! Claim theorems. -/

/-- C2: `search` includes a record row in its result exactly when the
case-normalized (stripped, lower-cased) query equals the case-normalized
value of one of exactly three fields - name, customer, or password - with
no substring or fuzzy matching against any field. -/
theorem match_is_exact_on_three_fields (role rawQuery : String)
    (records : List Record) :
    search role (normalize rawQuery) records =
      records.filterMap (fun row =>
        if normalize rawQuery = normalize row.name ∨
           normalize rawQuery = normalize row.customer ∨
           normalize rawQuery = normalize row.password
        then some (renderMatch row (displayPw role (normalize rawQuery) row))
        else none) := by
  induction records with
  | nil => rfl
  | cons row rest ih =>
    by_cases h : normalize rawQuery = normalize row.name ∨
        normalize rawQuery = normalize row.customer ∨
        normalize rawQuery = normalize row.password <;>
      simp [search, List.filterMap_cons, matchRow_iff, h, ih]

/-- C1 counterexample: for the record with password "ABC", the non-admin
query "abc" (which matches the row by the normalized password) reveals the
stored secret "ABC" in full, although the query string does not equal the
secret field's value and the caller is not admin - where the claim demands
the masking token. -/
theorem redaction_counterexample :
    search "user" "abc" [⟨"x", "y", "ABC", "0", "t", "n"⟩] =
      [renderMatch ⟨"x", "y", "ABC", "0", "t", "n"⟩ "ABC"] ∧
    displayPw "user" "abc" ⟨"x", "y", "ABC", "0", "t", "n"⟩ = "ABC" ∧
    ("user" : String) ≠ "admin" ∧ ("abc" : String) ≠ "ABC" ∧
    ("ABC" : String) ≠ maskToken := by decide

/-- C1 (amended): for every record matched by `search(role, query)`, the
password is shown in full exactly when the role is "admin" or the query
equals the case-normalized (stripped, lower-cased) password value; in
every other case the masking token is substituted, and all other fields
are rendered verbatim (visible in `renderMatch`). -/
theorem redaction_amended (role query : String) (records : List Record) :
    search role query records =
      (records.filter (fun row => matchRow query row)).map
        (fun row => renderMatch row
          (if role = "admin" ∨ query = normalize row.password then row.password
           else maskToken)) := by
  induction records with
  | nil => rfl
  | cons row rest ih =>
    have hd : displayPw role query row =
        (if role = "admin" ∨ query = normalize row.password then row.password
         else maskToken) := by
      by_cases h1 : role = "admin" <;> by_cases h2 : query = normalize row.password <;>
        simp [displayPw, h1, h2]
    by_cases hm : matchRow query row = true <;>
      simp [search, List.filter_cons, hm, ih, hd]

/-- C3: authenticating twice with the same valid code grants the same role
both times, and afterwards the persisted auth table holds exactly one row
keyed by the identity - the second call updates that row in place (the
table length does not grow) rather than appending a duplicate. -/
theorem idempotent_reauth (codes : List (String × String))
    (uid now1 now2 role : String) (args : List String) (s : State)
    (hcode : dictGet codes (joinArgs args) = some role) (hrole : role ≠ "")
    (hu : pyStrip uid = uid)
    (hcount : countRows (tableRows s) uid ≤ 1) :
    (auth codes uid now1 args s).1 = authSuccessMsg role ∧
    (auth codes uid now2 args (auth codes uid now1 args s).2).1 = authSuccessMsg role ∧
    countRows (tableRows (auth codes uid now2 args (auth codes uid now1 args s).2).2) uid
      = 1 ∧
    (tableRows (auth codes uid now2 args (auth codes uid now1 args s).2).2).length =
      (tableRows (auth codes uid now1 args s).2).length := by
  rw [auth_of_valid codes uid now1 role args s hcode hrole]
  dsimp only
  rw [auth_of_valid codes uid now2 role args (log_user_auth uid now1 role s) hcode hrole]
  dsimp only
  have c1 : countRows (tableRows (log_user_auth uid now1 role s)) uid = 1 := by
    rw [countRows_log _ _ _ _ hu]
    split
    · rfl
    · omega
  have c2 : countRows
      (tableRows (log_user_auth uid now2 role (log_user_auth uid now1 role s))) uid = 1 := by
    rw [countRows_log _ _ _ _ hu, c1]
    simp
  have c3 : (tableRows (log_user_auth uid now2 role (log_user_auth uid now1 role s))).length =
      (tableRows (log_user_auth uid now1 role s)).length :=
    length_tableRows_log_of_present _ _ _ _ (by rw [c1]; exact one_ne_zero)
  exact ⟨rfl, rfl, c2, c3⟩

/-- C3 witness at the spec scenario: code "batman" for identity 42 over an
initially absent auth table. -/
theorem idempotent_reauth_witness :
    (auth [("batman", "user")] "42" "t1" ["batman"] ⟨[], none⟩).1 = authSuccessMsg "user" ∧
    (auth [("batman", "user")] "42" "t2" ["batman"]
        (auth [("batman", "user")] "42" "t1" ["batman"] ⟨[], none⟩).2).1 =
      authSuccessMsg "user" ∧
    countRows (tableRows (auth [("batman", "user")] "42" "t2" ["batman"]
        (auth [("batman", "user")] "42" "t1" ["batman"] ⟨[], none⟩).2).2) "42" = 1 ∧
    (tableRows (auth [("batman", "user")] "42" "t2" ["batman"]
        (auth [("batman", "user")] "42" "t1" ["batman"] ⟨[], none⟩).2).2).length =
      (tableRows (auth [("batman", "user")] "42" "t1" ["batman"] ⟨[], none⟩).2).length :=
  idempotent_reauth [("batman", "user")] "42" "t1" "t2" "user" ["batman"] ⟨[], none⟩
    (by decide) (by decide) (by decide) (by decide)

/-- C4: immediately after a successful authentication, resolving the role
returns exactly the granted role with zero reads of the persisted auth
table and an unchanged cache (the cache short-circuits). -/
theorem auth_then_resolve_uses_cache (codes : List (String × String))
    (uid now role : String) (args : List String) (s : State)
    (hcode : dictGet codes (joinArgs args) = some role) (hrole : role ≠ "") :
    (auth codes uid now args s).1 = authSuccessMsg role ∧
    get_user_role uid (auth codes uid now args s).2 =
      ⟨some role, (auth codes uid now args s).2.cache, 0⟩ := by
  rw [auth_of_valid codes uid now role args s hcode hrole]
  dsimp only
  refine ⟨rfl, ?_⟩
  have hc : dictGet (log_user_auth uid now role s).cache uid = some role := by
    rw [log_user_auth_cache, dictGet_dictSet]
    simp
  simp only [get_user_role]
  rw [hc]

/-- C4 witness: identity 42 authenticates with "batman" and is then
resolved from the cache. -/
theorem auth_then_resolve_uses_cache_witness :
    (auth [("batman", "user")] "42" "t" ["batman"] ⟨[], none⟩).1 = authSuccessMsg "user" ∧
    get_user_role "42" (auth [("batman", "user")] "42" "t" ["batman"] ⟨[], none⟩).2 =
      ⟨some "user", (auth [("batman", "user")] "42" "t" ["batman"] ⟨[], none⟩).2.cache, 0⟩ :=
  auth_then_resolve_uses_cache [("batman", "user")] "42" "t" "user" ["batman"] ⟨[], none⟩
    (by decide) (by decide)

/-- C5: when role resolution yields `none` (or the empty role), `lookup`
replies with the unauthorized rejection, never runs the record scan, and
performs zero reads of the record sheet; that rejection is a different
reply from the empty-result reply. -/
theorem unauthorized_lookup_rejected (uid : String) (args : List String)
    (records : List Record) (s : State)
    (h : (get_user_role uid s).role = none ∨ (get_user_role uid s).role = some "") :
    lookup uid args records s =
      ⟨.reply unauthorizedMsg, ⟨(get_user_role uid s).cache, s.authTable⟩, 0, false⟩ ∧
    unauthorizedMsg ≠ noMatchesMsg := by
  refine ⟨?_, by decide⟩
  simp only [lookup]
  rcases h with h | h
  · rw [h]
  · rw [h]
    simp

/-- C5 witness: an unknown identity over an absent auth table. -/
theorem unauthorized_lookup_rejected_witness :
    lookup "9" ["x"] [] ⟨[], none⟩ =
      ⟨.reply unauthorizedMsg, ⟨(get_user_role "9" ⟨[], none⟩).cache, none⟩, 0, false⟩ ∧
    unauthorizedMsg ≠ noMatchesMsg :=
  unauthorized_lookup_rejected "9" ["x"] [] ⟨[], none⟩ (by decide)

/-- C6: in any reachable state whose auth worksheet is absent, role
resolution returns `none` for every identity - and without an error, as
the fallible model shows the `WorksheetNotFound` branch being caught - and
the first authentication creates the worksheet with the header row
["user_id", "last_login", "role"] holding exactly the new entry. -/
theorem missing_table_resilience (s : State) (uid now role : String)
    (hre : Reachable s) (ht : s.authTable = none) :
    (get_user_role uid s).role = none ∧
    get_user_roleE uid s.cache (.error .worksheetNotFound) = .ok ⟨none, s.cache, 0⟩ ∧
    (log_user_auth uid now role s).authTable =
      some ⟨authHeader, [⟨uid, now, role⟩]⟩ := by
  have hc : s.cache = [] := reachable_table_none_cache_nil s hre ht
  obtain ⟨cache, table⟩ := s
  dsimp only at hc ht
  subst hc
  subst ht
  refine ⟨rfl, rfl, ?_⟩
  simp [log_user_auth]

/-- C6 witness: the initial state with no worksheet. -/
theorem missing_table_resilience_witness :
    (get_user_role "42" ⟨[], none⟩).role = none ∧
    get_user_roleE "42" [] (.error .worksheetNotFound) = .ok ⟨none, [], 0⟩ ∧
    (log_user_auth "42" "t1" "user" ⟨[], none⟩).authTable =
      some ⟨authHeader, [⟨"42", "t1", "user"⟩]⟩ :=
  missing_table_resilience ⟨[], none⟩ "42" "t1" "user" (Reachable.start none) rfl

/-- C7: an access code whose normalized form is not in the static mapping
is rejected with the invalid-code reply and causes no state change at all:
the cache and the persisted auth table are returned exactly as given. -/
theorem invalid_code_rejected (codes : List (String × String)) (uid now : String)
    (args : List String) (s : State)
    (h : dictGet codes (joinArgs args) = none) :
    auth codes uid now args s = (invalidCodeMsg, s) := by
  simp only [auth]
  rw [h]

/-- C7 witness: the unknown code "robin". -/
theorem invalid_code_rejected_witness :
    auth [("batman", "user"), ("daddy", "admin")] "42" "t" ["robin"] ⟨[], none⟩ =
      (invalidCodeMsg, (⟨[], none⟩ : State)) :=
  invalid_code_rejected [("batman", "user"), ("daddy", "admin")] "42" "t" ["robin"]
    ⟨[], none⟩ (by decide)

/-- C8 counterexample: a rate-limit error raised by the record-sheet read
inside an authorized lookup escapes `lookup` uncaught, so the chat gateway
receives the raw store error - the claim says that never happens. -/
theorem raw_store_error_reaches_gateway :
    lookupE "5" ["x"] (.ok ⟨authHeader, []⟩) (.error .rateLimited) [("5", "user")] =
      .error .rateLimited ∧
    StoreErr.rateLimited ≠ StoreErr.worksheetNotFound :=
  ⟨rfl, by decide⟩

/-- C8 (amended): the only store error the code catches is the missing
worksheet (`WorksheetNotFound`), converted to "no auth entry" in role
resolution and to table creation in authentication; every other store
error - and any error at all from the record-sheet read - propagates to
the gateway as a raw store error. -/
theorem store_error_propagation_amended (uid uid2 now role roleC : String)
    (args args2 : List String) (cache cache2 : List (String × String))
    (e e2 : StoreErr) (rf : Except StoreErr (List Record))
    (af : Except StoreErr AuthTable)
    (hmiss : dictGet cache uid = none) (he : e ≠ .worksheetNotFound)
    (hhit : dictGet cache2 uid2 = some roleC) (hroleC : roleC ≠ "")
    (hq : joinArgs args2 ≠ "") :
    lookupE uid args (.error e) rf cache = .error e ∧
    lookupE uid2 args2 af (.error e2) cache2 = .error e2 ∧
    get_user_roleE uid cache (.error .worksheetNotFound) = .ok ⟨none, cache, 0⟩ ∧
    log_user_authE uid now role cache (.error e) = .error e ∧
    log_user_authE uid now role cache (.error .worksheetNotFound) =
      .ok (log_user_auth uid now role ⟨cache, none⟩) := by
  have hg : get_user_roleE uid cache (.error e) = .error e := by
    cases e with
    | worksheetNotFound => exact absurd rfl he
    | rateLimited =>
      unfold get_user_roleE
      rw [hmiss]
    | transient =>
      unfold get_user_roleE
      rw [hmiss]
  have hg2 : get_user_roleE uid2 cache2 af = .ok ⟨some roleC, cache2, 0⟩ := by
    unfold get_user_roleE
    rw [hhit]
  refine ⟨?_, ?_, ?_, ?_, rfl⟩
  · simp only [lookupE]
    rw [hg]
  · simp only [lookupE]
    rw [hg2]
    simp [hroleC, hq]
  · unfold get_user_roleE
    rw [hmiss]
  · cases e with
    | worksheetNotFound => exact absurd rfl he
    | rateLimited => rfl
    | transient => rfl

/-- C8 amended witness: concrete rate-limited and transient store errors. -/
theorem store_error_propagation_amended_witness :
    lookupE "9" ["x"] (.error .rateLimited) (.ok []) [] = .error .rateLimited ∧
    lookupE "5" ["x"] (.ok ⟨authHeader, []⟩) (.error .transient) [("5", "user")] =
      .error .transient ∧
    get_user_roleE "9" [] (.error .worksheetNotFound) = .ok ⟨none, [], 0⟩ ∧
    log_user_authE "9" "t" "user" [] (.error .rateLimited) = .error .rateLimited ∧
    log_user_authE "9" "t" "user" [] (.error .worksheetNotFound) =
      .ok (log_user_auth "9" "t" "user" ⟨[], none⟩) :=
  store_error_propagation_amended "9" "5" "t" "user" "user" ["x"] ["x"] []
    [("5", "user")] .rateLimited .transient (.ok []) (.ok ⟨authHeader, []⟩)
    (by decide) (by decide) (by decide) (by decide) (by decide)

/-- C9: every operation of the process (preload, authentication, role
resolution, lookup) only adds or overwrites cache entries: an identity
cached before a step is still cached after it, so no step ever evicts. -/
theorem cache_monotone (s s' : State) (hstep : Step s s') (u : String)
    (h : (dictGet s.cache u).isSome = true) :
    (dictGet s'.cache u).isSome = true := by
  cases hstep with
  | preloadStep =>
    obtain ⟨cache, table⟩ := s
    cases table with
    | none => exact h
    | some t => exact isSome_dictGet_foldl_preloadRow t.rows cache u h
  | authStep codes uid now args =>
    rcases auth_cases codes uid now args s with he | ⟨role, hr, hc, he⟩
    · rw [he]
      exact h
    · rw [he]
      exact isSome_dictGet_dictSet _ _ _ _ h
  | resolveStep uid => exact get_user_role_cache_mono uid u s h
  | lookupStep uid args records =>
    rw [lookup_state]
    exact get_user_role_cache_mono uid u s h

/-- C9 witness: a preload step over a cached identity. -/
theorem cache_monotone_witness :
    (dictGet (preload ⟨[("1", "user")], none⟩).cache "1").isSome = true :=
  cache_monotone ⟨[("1", "user")], none⟩ (preload ⟨[("1", "user")], none⟩)
    (Step.preloadStep ⟨[("1", "user")], none⟩) "1" (by decide)

/-- C10 counterexample: identity "7" is authorized (its role resolves to
"user" from the persisted table), its empty-argument lookup returns the
usage reply with zero record reads - but the cache does not stay
unchanged: the read-through inside `lookup` populates it. -/
theorem empty_query_counterexample :
    lookup "7" [] [] ⟨[], some ⟨authHeader, [⟨"7", "t", "user"⟩]⟩⟩ =
      ⟨.reply usageMsg,
        ⟨[("7", "user")], some ⟨authHeader, [⟨"7", "t", "user"⟩]⟩⟩, 0, false⟩ ∧
    (get_user_role "7" ⟨[], some ⟨authHeader, [⟨"7", "t", "user"⟩]⟩⟩).role = some "user" ∧
    ([("7", "user")] : List (String × String)) ≠ [] := by decide

/-- C10 (amended): for an authorized identity, an empty-after-joining
query makes `lookup` return the usage reply with zero record-sheet reads,
no scan, an unchanged auth table, and a cache equal to the one produced by
role resolution (so unchanged whenever the identity was already cached). -/
theorem empty_query_amended (uid : String) (args : List String)
    (records : List Record) (s : State) (role : String)
    (hrole : (get_user_role uid s).role = some role) (hr : role ≠ "")
    (hq : joinArgs args = "") :
    lookup uid args records s =
      ⟨.reply usageMsg, ⟨(get_user_role uid s).cache, s.authTable⟩, 0, false⟩ := by
  simp only [lookup]
  rw [hrole]
  simp [hr, hq]

/-- C10 amended witness: a cached identity with an empty argument list. -/
theorem empty_query_amended_witness :
    lookup "7" [] [] ⟨[("7", "user")], none⟩ =
      ⟨.reply usageMsg, ⟨(get_user_role "7" ⟨[("7", "user")], none⟩).cache, none⟩, 0, false⟩ :=
  empty_query_amended "7" [] [] ⟨[("7", "user")], none⟩ "user"
    (by decide) (by decide) (by decide)

end SheetSnitch
